import Mathlib

/-!
Ethiopia Cultural Heritage, the Dashboard screen.

A shallow embedding of `components/Dashboard.js`: the record extraction inside
`fetchData`, the share message of `shareSite`, the three toggles
(`handleIconPress`, `handleDislikePress`, `toggleExpand`) and the description
text chosen by the render.

JavaScript strings are sequences of UTF-16 code units, so a string is a list of
code units here; `length`, `substring` and `trim` count code units exactly as
the engine does.
-/

set_option maxRecDepth 20000

namespace Dashboard

/-! ## JavaScript strings -/

/-- A JavaScript string: its UTF-16 code units (numbers below 65536). -/
abbrev JSString := List Nat

/-- The code units of a literal of the source (every literal of the file is ASCII). -/
def lit (s : String) : JSString := s.toList.map Char.toNat

/-- WhiteSpace and LineTerminator code units, the ones `String.prototype.trim` strips. -/
def isWhiteSpace (c : Nat) : Bool :=
  c == 0x09 || c == 0x0A || c == 0x0B || c == 0x0C || c == 0x0D || c == 0x20 ||
  c == 0xA0 || c == 0x1680 || (0x2000 ≤ c && c ≤ 0x200A) || c == 0x2028 ||
  c == 0x2029 || c == 0x202F || c == 0x205F || c == 0x3000 || c == 0xFEFF

/-- The method `String.prototype.trim`: white space removed from both ends. -/
def trim (s : JSString) : JSString :=
  ((s.dropWhile isWhiteSpace).reverse.dropWhile isWhiteSpace).reverse

/-- The method `String.prototype.substring(start, end)` for non-negative integer arguments:
both are clamped to the length and swapped when out of order. -/
def substring (s : JSString) (start stop : Nat) : JSString :=
  let a := min start s.length
  let b := min stop s.length
  (s.take (max a b)).drop (min a b)

/-! ## The parsed document, as `fetchData` queries it -/

/-- An element returned by `getElementsByTagName`: its text content and its attributes. -/
structure Element where
  textContent : JSString
  attributes : List (JSString × JSString)

/-- A container matched by the marker class; `fetchData` only ever asks it for
its descendants of a given tag name, in document order. -/
structure Container where
  getElementsByTagName : JSString → List Element

/-- The call `element.getAttribute(name)` as the template literal of line 48
interpolates it. The parser is an external package: `absent` is the text it
contributes for an attribute the element does not have (the xmldom-derived
parser imported at line 12 returns the empty string, a standard DOM returns
`null`, interpolated as the four letters `null`). -/
def getAttribute (absent : JSString) (e : Element) (name : JSString) : JSString :=
  match e.attributes.lookup name with
  | some v => v
  | none => absent

/-- A heritage site record, `{ title, description, image }`. -/
structure Site where
  title : JSString
  description : JSString
  image : JSString
deriving DecidableEq, Repr

/-- The origin prefixed to every image source (line 48). -/
def baseURL : JSString := lit "https://www.ethiopianadventuretours.com"

/-- The page fetched at line 29 and linked by `shareSite` at line 70. -/
def pageURL : JSString :=
  lit "https://www.ethiopianadventuretours.com/about-ethiopia/unesco-world-heritage-sites-ethiopia"

/-- The loop of `Array.prototype.filter` from index `i` on: the callback receives the
element, its index and the whole array. -/
def filterFrom {α : Type} (f : α → Nat → List α → Bool) (array : List α) :
    Nat → List α → List α
  | _, [] => []
  | i, x :: xs =>
    if f x i array then x :: filterFrom f array (i + 1) xs
    else filterFrom f array (i + 1) xs

/-- The method `Array.prototype.filter`. -/
def filter {α : Type} (f : α → Nat → List α → Bool) (array : List α) : List α :=
  filterFrom f array 0 array

/-- The callback of line 38: `index > 1 && index < array.length - 2`, the
subtraction taken in the integers as the engine takes it (it is negative for
fewer than two containers). -/
def keepContainer {α : Type} (_ : α) (index : Nat) (array : List α) : Bool :=
  decide (index > 1) && decide ((index : Int) < (array.length : Int) - 2)

/-- The callback of lines 39-55: one record from one container. -/
def toSite (absent : JSString) (container : Container) : Site :=
  let titleElement := (container.getElementsByTagName (lit "h3")).head?
  let descriptionElement := (container.getElementsByTagName (lit "p")).head?
  let imgElement := (container.getElementsByTagName (lit "img")).head?
  let title :=
    match titleElement with
    | some e => trim e.textContent
    | none => lit "No title available"
  let image :=
    match imgElement with
    | some e => baseURL ++ getAttribute absent e (lit "src")
    | none => lit ""
  let description :=
    match descriptionElement with
    | some e => trim e.textContent
    | none => lit "No description available"
  { title := title, description := description, image := image }

/-- Lines 37-55 of `fetchData`: the containers filtered by position, then mapped to records. -/
def sites (absent : JSString) (siteContainers : List Container) : List Site :=
  (filter keepContainer siteContainers).map (toSite absent)

/-! ## The share message -/

/-- The characters `encodeURIComponent` leaves alone: letters, digits and `- _ . ! ~ * ' ( )`. -/
def isUnescaped (c : Nat) : Bool :=
  (65 ≤ c && c ≤ 90) || (97 ≤ c && c ≤ 122) || (48 ≤ c && c ≤ 57) ||
  c == 45 || c == 95 || c == 46 || c == 33 || c == 126 || c == 42 ||
  c == 39 || c == 40 || c == 41

/-- A leading (high) surrogate code unit. -/
def isHighSurrogate (c : Nat) : Bool := 0xD800 ≤ c && c ≤ 0xDBFF

/-- A trailing (low) surrogate code unit. -/
def isLowSurrogate (c : Nat) : Bool := 0xDC00 ≤ c && c ≤ 0xDFFF

/-- One upper-case hexadecimal digit. -/
def hexDigit (d : Nat) : Nat := if d < 10 then 48 + d else 55 + d

/-- The UTF-8 octets of a code point. -/
def utf8 (cp : Nat) : List Nat :=
  if cp < 0x80 then [cp]
  else if cp < 0x800 then [0xC0 + cp / 64, 0x80 + cp % 64]
  else if cp < 0x10000 then [0xE0 + cp / 4096, 0x80 + cp / 64 % 64, 0x80 + cp % 64]
  else [0xF0 + cp / 262144, 0x80 + cp / 4096 % 64, 0x80 + cp / 64 % 64, 0x80 + cp % 64]

/-- A code point percent-escaped: `%XX` for each of its UTF-8 octets. -/
def escape (cp : Nat) : JSString :=
  (utf8 cp).flatMap fun b => [37, hexDigit (b / 16), hexDigit (b % 16)]

/-- The built-in `encodeURIComponent`; `none` is the `URIError` it throws on an
unpaired surrogate. -/
def encodeURIComponent : JSString → Option JSString
  | [] => some []
  | c :: rest =>
    if isUnescaped c then (encodeURIComponent rest).map (c :: ·)
    else if isLowSurrogate c then none
    else if isHighSurrogate c then
      match rest with
      | [] => none
      | d :: rest2 =>
        if isLowSurrogate d then
          (encodeURIComponent rest2).map
            (escape ((c - 0xD800) * 0x400 + (d - 0xDC00) + 0x10000) ++ ·)
        else none
    else (encodeURIComponent rest).map (escape c ++ ·)

/-- The method `String.prototype.isWellFormed`: the string has no unpaired surrogate. -/
def isWellFormed : JSString → Bool
  | [] => true
  | c :: rest =>
    if isLowSurrogate c then false
    else if isHighSurrogate c then
      match rest with
      | [] => false
      | d :: rest2 => isLowSurrogate d && isWellFormed rest2
    else isWellFormed rest

/-- The `message` that `shareSite` builds at lines 70-71 and hands to
`Share.share`; `none` when `encodeURIComponent` throws before any message exists. -/
def shareSite (site : Site) : Option JSString :=
  match encodeURIComponent site.title with
  | none => none
  | some encoded =>
    let url := pageURL ++ lit "#" ++ encoded
    some (url ++ lit " \n\n " ++ site.image)

/-! ## Interaction state -/

/-- What reading a property of one of the three state objects can give. -/
inductive JSVal where
  | undefined
  | bool (b : Bool)
  | inherited
deriving DecidableEq, Repr

/-- The truthiness test of `!x` and of `x ? a : b`; whatever `Object.prototype`
holds is a function or an object, hence truthy. -/
def toBoolean : JSVal → Bool
  | .undefined => false
  | .bool b => b
  | .inherited => true

/-- A state object (`favorites`, `dislikes`, `expanded`): its own properties,
whose order plays no role in a read. It starts as `{}` and the code only ever
stores booleans. -/
abbrev JSObject := List (JSString × Bool)

/-- The property names every plain object inherits from `Object.prototype`. -/
def objectPrototypeKeys : List JSString :=
  [lit "constructor", lit "hasOwnProperty", lit "isPrototypeOf", lit "propertyIsEnumerable",
   lit "toLocaleString", lit "toString", lit "valueOf", lit "__proto__",
   lit "__defineGetter__", lit "__defineSetter__", lit "__lookupGetter__",
   lit "__lookupSetter__"]

/-- The read `object[key]`: an own property first, then the prototype. -/
def getProp (object : JSObject) (key : JSString) : JSVal :=
  match object.lookup key with
  | some b => .bool b
  | none => if key ∈ objectPrototypeKeys then .inherited else .undefined

/-- The object literal `{ ...object, [key]: value }`: the own properties of
`object` copied, `key` then set to `value` (replaced where it stands, or added). -/
def spreadSet : JSObject → JSString → Bool → JSObject
  | [], key, value => [(key, value)]
  | (k, v) :: rest, key, value =>
    if k = key then (k, value) :: rest else (k, v) :: spreadSet rest key value

/-- The three `useState` objects of the component that the toggles write. -/
structure State where
  favorites : JSObject
  dislikes : JSObject
  expanded : JSObject
deriving DecidableEq, Repr

/-- The state after `useState({})` three times (lines 20-22). -/
def initialState : State := { favorites := [], dislikes := [], expanded := [] }

/-- The handler of lines 82-89; `animateIcon` only drives `rotateAnim`. -/
def handleIconPress (s : State) (title : JSString) (isFavorite : JSVal) : State :=
  let newFavorites := spreadSet s.favorites title (!toBoolean isFavorite)
  { s with favorites := newFavorites }

/-- The handler of lines 91-98. -/
def handleDislikePress (s : State) (title : JSString) (isDisliked : JSVal) : State :=
  let newDislikes := spreadSet s.dislikes title (!toBoolean isDisliked)
  { s with dislikes := newDislikes }

/-- The handler of lines 116-121. -/
def toggleExpand (s : State) (title : JSString) : State :=
  { s with expanded := spreadSet s.expanded title (!toBoolean (getProp s.expanded title)) }

/-- The `onPress` of line 163: `handleIconPress(site.title, favorites[site.title])`. -/
def pressFavorite (s : State) (title : JSString) : State :=
  handleIconPress s title (getProp s.favorites title)

/-- The `onPress` of line 170: `handleDislikePress(site.title, dislikes[site.title])`. -/
def pressDislike (s : State) (title : JSString) : State :=
  handleDislikePress s title (getProp s.dislikes title)

/-- The favorite flag as the render reads it (line 167). -/
def isFavorite (s : State) (title : JSString) : Bool := toBoolean (getProp s.favorites title)

/-- The disliked flag as the render reads it (line 175). -/
def isDisliked (s : State) (title : JSString) : Bool := toBoolean (getProp s.dislikes title)

/-- The expanded flag as the render reads it (lines 152 and 158). -/
def isExpanded (expanded : JSObject) (title : JSString) : Bool :=
  toBoolean (getProp expanded title)

/-- The flag a state object holds for a title, an unset title counted as false:
the reading of the specification, whose store answers false for an unseen title. -/
def storedFlag (object : JSObject) (title : JSString) : Bool :=
  (object.lookup title).getD false

/-- The description text of lines 152-154. -/
def descriptionText (expanded : JSObject) (site : Site) : JSString :=
  if toBoolean (getProp expanded site.title) then site.description
  else substring site.description 0 100 ++ lit "..."

/-! ## Fixtures -/

/-- An element with the given text and attributes. -/
def element (text : String) (attrs : List (String × String)) : Element :=
  { textContent := lit text, attributes := attrs.map fun a => (lit a.1, lit a.2) }

/-- A container whose `h3`, `p` and `img` descendants are the given lists. -/
def container (h3 p img : List Element) : Container :=
  { getElementsByTagName := fun tag =>
      if tag = lit "h3" then h3
      else if tag = lit "p" then p
      else if tag = lit "img" then img
      else [] }

/-- A well-formed card: one `h3`, one `p`, one `img` with a `src`. -/
def card (title about src : String) : Container :=
  container [element title []] [element about []] [element "" [("src", src)]]

/-- Six matched containers, the third and fourth being heritage cards. -/
def sixContainers : List Container :=
  [card "Menu" "nav" "/a.png", card "Intro" "welcome" "/b.png",
   card " Lalibela " "Rock-hewn churches" "/images/lalibela.jpg",
   card "Aksum" " Obelisks\n" "/images/aksum.jpg",
   card "Contact" "footer" "/c.png", card "Legal" "terms" "/d.png"]

/-- A container whose only `img` carries an `alt` but no `src`. -/
def imgWithoutSrc : Container :=
  container [element "Harar Jugol" []] [element "Fortified town" []]
    [element "" [("alt", "Harar")]]

/-- A container whose `h3` holds white space only. -/
def blankHeading : Container :=
  container [element " \n\t " []] [element "Lower Valley of the Awash" []]
    [element "" [("src", "/images/awash.jpg")]]

/-- A bare container: no `h3`, no `p`, no `img`. -/
def bareContainer : Container := container [] [] []

/-- A description of 103 code units: one hundred letters `a`, then three dots. -/
def dottedDescription : JSString := List.replicate 100 97 ++ lit "..."

/-- A record carrying `dottedDescription`. -/
def dottedSite : Site :=
  { title := lit "Omo", description := dottedDescription, image := lit "" }

/-- A record with a plain title and an image. -/
def aksumSite : Site :=
  { title := lit "Aksum", description := lit "Obelisks",
    image := lit "https://www.ethiopianadventuretours.com/images/aksum.jpg" }

/-- A record whose title is a lone high surrogate. -/
def surrogateSite : Site :=
  { title := [0xD83D], description := lit "", image := lit "" }

/-- A record with a description of 120 letters `a`. -/
def longSite : Site :=
  { title := lit "Lalibela", description := List.replicate 120 97, image := lit "" }

/-- A record with the same long description, titled `constructor`. -/
def constructorSite : Site :=
  { title := lit "constructor", description := List.replicate 120 97, image := lit "" }

/-- A record with a short description, titled `toString`. -/
def toStringSite : Site :=
  { title := lit "toString", description := lit "Obelisks", image := lit "" }

/-! ## Lemmas on the positional filter -/

theorem filterFrom_keepContainer {α : Type} (array : List α) (xs : List α) (i : Nat) :
    filterFrom keepContainer array i xs
      = ((xs.take (array.length - 2 - i)).drop (2 - i)) := by
  induction xs generalizing i with
  | nil => simp [filterFrom]
  | cons x xs ih =>
    simp only [filterFrom, keepContainer, ih]
    split_ifs with h
    · simp only [Bool.and_eq_true, decide_eq_true_eq] at h
      obtain ⟨h1, h2⟩ := h
      have e1 : array.length - 2 - i = (array.length - 2 - (i + 1)) + 1 := by omega
      have e2 : 2 - i = 0 := by omega
      have e3 : 2 - (i + 1) = 0 := by omega
      rw [e1, e2, e3]
      simp
    · simp only [Bool.and_eq_true, decide_eq_true_eq, not_and] at h
      by_cases h1 : 1 < i
      · have h2 := h h1
        have e1 : array.length - 2 - i = 0 := by omega
        have e2 : array.length - 2 - (i + 1) = 0 := by omega
        rw [e1, e2]
        simp
      · have e3 : 2 - i = (2 - (i + 1)) + 1 := by omega
        rw [e3]
        rcases Nat.eq_zero_or_pos (array.length - 2 - i) with h0 | h0
        · have e2 : array.length - 2 - (i + 1) = 0 := by omega
          rw [h0, e2]
          simp
        · have e1 : array.length - 2 - i = (array.length - 2 - (i + 1)) + 1 := by omega
          rw [e1]
          simp

theorem filter_keepContainer {α : Type} (array : List α) :
    filter keepContainer array = (array.take (array.length - 2)).drop 2 := by
  simp [filter, filterFrom_keepContainer]

theorem sites_eq (absent : JSString) (cs : List Container) :
    sites absent cs = ((cs.take (cs.length - 2)).drop 2).map (toSite absent) := by
  simp [sites, filter_keepContainer]

/-! ## Lemmas on `trim` -/

theorem dropWhile_all_iff (p : Nat → Bool) (l : List Nat) :
    (∀ x ∈ l.dropWhile p, p x = true) ↔ ∀ x ∈ l, p x = true := by
  induction l with
  | nil => simp
  | cons a l ih =>
    by_cases h : p a = true
    · simp [List.dropWhile_cons, h, ih]
    · simp [List.dropWhile_cons, h]

theorem trim_eq_nil_iff (s : JSString) :
    trim s = [] ↔ ∀ c ∈ s, isWhiteSpace c = true := by
  unfold trim
  rw [List.reverse_eq_nil_iff, List.dropWhile_eq_nil_iff]
  simp only [List.mem_reverse]
  exact dropWhile_all_iff isWhiteSpace s

theorem baseURL_append_ne_nil (t : JSString) : baseURL ++ t ≠ [] := by
  intro h
  have h2 := congrArg List.length h
  rw [List.length_append] at h2
  have h3 : baseURL.length = 39 := by decide
  simp only [List.length_nil] at h2
  omega

/-! ## Lemmas on the state objects -/

theorem lookup_spreadSet (o : JSObject) (key : JSString) (value : Bool) (k : JSString) :
    (spreadSet o key value).lookup k = if k = key then some value else o.lookup k := by
  induction o with
  | nil =>
    by_cases h : k = key
    · simp [spreadSet, List.lookup, h]
    · have hb : (k == key) = false := by simpa using h
      simp [spreadSet, List.lookup, h, hb]
  | cons a rest ih =>
    obtain ⟨k0, v0⟩ := a
    by_cases h0 : k0 = key
    · by_cases h : k = key
      · simp [spreadSet, List.lookup, h0, h]
      · have hb : (k == key) = false := by simpa using h
        simp [spreadSet, List.lookup, h0, h, hb]
    · by_cases h : k = k0
      · have hk : ¬ k = key := by rw [h]; exact h0
        simp [spreadSet, List.lookup, h0, h]
      · have hb : (k == k0) = false := by simpa using h
        simp [spreadSet, List.lookup, h0, h, hb, ih]

theorem getProp_spreadSet_same (o : JSObject) (key : JSString) (value : Bool) :
    getProp (spreadSet o key value) key = JSVal.bool value := by
  simp [getProp, lookup_spreadSet]

theorem getProp_spreadSet_other (o : JSObject) (key : JSString) (value : Bool) (k : JSString)
    (h : k ≠ key) : getProp (spreadSet o key value) k = getProp o k := by
  simp [getProp, lookup_spreadSet, h]

theorem toBoolean_getProp_eq_storedFlag (o : JSObject) (title : JSString)
    (h : title ∉ objectPrototypeKeys ∨ (o.lookup title).isSome = true) :
    toBoolean (getProp o title) = storedFlag o title := by
  cases hl : o.lookup title with
  | some b => simp [getProp, storedFlag, hl, toBoolean]
  | none =>
    rw [hl] at h
    have hk : title ∉ objectPrototypeKeys := by
      rcases h with h | h
      · exact h
      · cases h
    simp [getProp, storedFlag, hl, hk, toBoolean]

theorem substring_zero (s : JSString) (n : Nat) : substring s 0 n = s.take n := by
  simp only [substring, Nat.zero_min, Nat.zero_max, List.drop_zero]
  rcases Nat.le_total n s.length with h | h
  · rw [Nat.min_eq_left h]
  · rw [Nat.min_eq_right h, List.take_of_length_le h, List.take_of_length_le (le_refl _)]

/-! ## Lemmas on `encodeURIComponent` -/

theorem isUnescaped_not_surrogate (c : Nat) (h : isUnescaped c = true) :
    isLowSurrogate c = false ∧ isHighSurrogate c = false := by
  simp only [isUnescaped, Bool.or_eq_true, Bool.and_eq_true, decide_eq_true_eq,
    beq_iff_eq] at h
  simp only [isLowSurrogate, isHighSurrogate, Bool.and_eq_false_iff, decide_eq_false_iff_not]
  omega

theorem encodeURIComponent_isSome_aux (n : Nat) :
    ∀ s : JSString, s.length ≤ n → (encodeURIComponent s).isSome = isWellFormed s := by
  induction n with
  | zero =>
    intro s hs
    have : s = [] := List.length_eq_zero.mp (Nat.le_zero.mp hs)
    subst this
    simp [encodeURIComponent, isWellFormed]
  | succ n ih =>
    intro s hs
    match s with
    | [] => simp [encodeURIComponent, isWellFormed]
    | [c] =>
      have h0 := ih [] (Nat.zero_le n)
      by_cases hu : isUnescaped c = true
      · obtain ⟨hl, hh⟩ := isUnescaped_not_surrogate c hu
        simp [encodeURIComponent, isWellFormed, hu, hl, hh]
      · by_cases hl : isLowSurrogate c = true
        · simp [encodeURIComponent, isWellFormed, hu, hl]
        · by_cases hh : isHighSurrogate c = true
          · simp [encodeURIComponent, isWellFormed, hu, hl, hh]
          · simp [encodeURIComponent, isWellFormed, hu, hl, hh]
    | c :: d :: rest2 =>
      have hr : (d :: rest2).length ≤ n := by simpa using hs
      have hr2 : rest2.length ≤ n := by
        simp only [List.length_cons] at hr; omega
      have ih1 := ih (d :: rest2) hr
      have ih2 := ih rest2 hr2
      by_cases hu : isUnescaped c = true
      · obtain ⟨hl, hh⟩ := isUnescaped_not_surrogate c hu
        rw [encodeURIComponent, isWellFormed]
        simp [hu, hl, hh, ih1]
      · by_cases hl : isLowSurrogate c = true
        · rw [encodeURIComponent, isWellFormed]
          simp [hu, hl]
        · by_cases hh : isHighSurrogate c = true
          · by_cases hd : isLowSurrogate d = true
            · rw [encodeURIComponent, isWellFormed]
              simp [hu, hl, hh, hd, ih2]
            · rw [encodeURIComponent, isWellFormed]
              simp [hu, hl, hh, hd]
          · rw [encodeURIComponent, isWellFormed]
            simp [hu, hl, hh, ih1]

theorem encodeURIComponent_isSome (s : JSString) :
    (encodeURIComponent s).isSome = isWellFormed s :=
  encodeURIComponent_isSome_aux s.length s (le_refl _)

/-- C1: the extraction step emits exactly max(0, n - 4) records for n matched
containers, hence none for n at most 4, and never a negative number. -/
theorem sites_length (absent : JSString) (cs : List Container) :
    ((sites absent cs).length : Int) = max 0 ((cs.length : Int) - 4) ∧
    (cs.length ≤ 4 → (sites absent cs).length = 0) ∧
    (0 : Int) ≤ ((sites absent cs).length : Int) := by
  have h : (sites absent cs).length = cs.length - 4 := by
    rw [sites_eq]
    simp only [List.length_map, List.length_drop, List.length_take]
    omega
  refine ⟨?_, ?_, ?_⟩
  · rw [h]; omega
  · intro hn; rw [h]; omega
  · omega

/-- C2: with at least four matched containers the output keeps document order
and drops exactly the first two and the last two: it has n - 4 records and its
k-th record is the one built from container k + 2. -/
theorem sites_document_order (absent : JSString) (cs : List Container)
    (hn : 4 ≤ cs.length) :
    (sites absent cs).length = cs.length - 4 ∧
    ∀ k, k < cs.length - 4 →
      ∃ c, cs[k + 2]? = some c ∧ (sites absent cs)[k]? = some (toSite absent c) := by
  constructor
  · rw [sites_eq]
    simp only [List.length_map, List.length_drop, List.length_take]
    omega
  · intro k hk
    have hlt : k + 2 < cs.length := by omega
    refine ⟨cs[k + 2], by simp [hlt], ?_⟩
    rw [sites_eq]
    rw [List.getElem?_map, List.getElem?_drop, List.getElem?_take]
    have h2 : 2 + k < cs.length - 2 := by omega
    have e : 2 + k = k + 2 := by omega
    simp [e, hlt]
    omega

theorem sites_length_witness :
    [bareContainer, bareContainer, bareContainer].length ≤ 4 ∧
    (sites (lit "") [bareContainer, bareContainer, bareContainer]).length = 0 ∧
    ((sites (lit "") sixContainers).length : Int) = 2 :=
  ⟨by decide,
   (sites_length (lit "") [bareContainer, bareContainer, bareContainer]).2.1 (by decide),
   by decide⟩

theorem sites_document_order_witness :
    4 ≤ sixContainers.length ∧
    ((sites (lit "") sixContainers).length = sixContainers.length - 4 ∧
      ∀ k, k < sixContainers.length - 4 →
        ∃ c, sixContainers[k + 2]? = some c ∧
          (sites (lit "") sixContainers)[k]? = some (toSite (lit "") c)) ∧
    sites (lit "") sixContainers =
      [{ title := lit "Lalibela", description := lit "Rock-hewn churches",
         image := lit "https://www.ethiopianadventuretours.com/images/lalibela.jpg" },
       { title := lit "Aksum", description := lit "Obelisks",
         image := lit "https://www.ethiopianadventuretours.com/images/aksum.jpg" }] :=
  ⟨by decide, sites_document_order (lit "") sixContainers (by decide), by decide⟩

/-- C3: each of the three fields of a record is decided by its own element
alone. Without an `h3` the title is the sentinel, without a `p` the description
is the sentinel, without an `img` the image is empty; with the element present
the field is the trimmed text of the first `h3`, the trimmed text of the first
`p`, the base URL followed by the first `img`'s `src`, whatever the two other
queries return. -/
theorem toSite_fields_independent (absent : JSString) (c : Container) :
    (c.getElementsByTagName (lit "h3") = [] → (toSite absent c).title = lit "No title available") ∧
    (c.getElementsByTagName (lit "p") = [] →
      (toSite absent c).description = lit "No description available") ∧
    (c.getElementsByTagName (lit "img") = [] → (toSite absent c).image = lit "") ∧
    (∀ e rest, c.getElementsByTagName (lit "h3") = e :: rest →
      (toSite absent c).title = trim e.textContent) ∧
    (∀ e rest, c.getElementsByTagName (lit "p") = e :: rest →
      (toSite absent c).description = trim e.textContent) ∧
    (∀ e rest src, c.getElementsByTagName (lit "img") = e :: rest →
      e.attributes.lookup (lit "src") = some src →
      (toSite absent c).image = baseURL ++ src) ∧
    (∀ d : Container,
      ((d.getElementsByTagName (lit "h3")).head? = (c.getElementsByTagName (lit "h3")).head? →
        (toSite absent d).title = (toSite absent c).title) ∧
      ((d.getElementsByTagName (lit "p")).head? = (c.getElementsByTagName (lit "p")).head? →
        (toSite absent d).description = (toSite absent c).description) ∧
      ((d.getElementsByTagName (lit "img")).head? = (c.getElementsByTagName (lit "img")).head? →
        (toSite absent d).image = (toSite absent c).image)) := by
  refine ⟨?_, ?_, ?_, ?_, ?_, ?_, ?_⟩
  · intro h; simp [toSite, h]
  · intro h; simp [toSite, h]
  · intro h; simp [toSite, h]
  · intro e rest h; simp [toSite, h]
  · intro e rest h; simp [toSite, h]
  · intro e rest src h hs; simp [toSite, h, getAttribute, hs]
  · intro d
    refine ⟨?_, ?_, ?_⟩
    · intro h; simp [toSite, h]
    · intro h; simp [toSite, h]
    · intro h; simp [toSite, h]

theorem toSite_fields_independent_witness :
    bareContainer.getElementsByTagName (lit "h3") = [] ∧
    (toSite (lit "") bareContainer).title = lit "No title available" ∧
    (toSite (lit "") (container [] [element " Simien " []] [])) =
      { title := lit "No title available", description := lit "Simien", image := lit "" } ∧
    (toSite (lit "") (container [element "Tiya" []] [] [element "" [("src", "/t.jpg")]])) =
      { title := lit "Tiya", description := lit "No description available",
        image := lit "https://www.ethiopianadventuretours.com/t.jpg" } :=
  ⟨rfl, (toSite_fields_independent (lit "") bareContainer).1 rfl, by decide, by decide⟩

/-- C4, as stated, fails: a container whose first `img` has no `src` attribute
gets a non-empty image, the base URL followed by what `getAttribute` gives for
the missing attribute (nothing under the parser in use, `null` under a standard
DOM). -/
theorem image_without_src_not_empty :
    ((imgWithoutSrc.getElementsByTagName (lit "img")).head?.map
        fun e => e.attributes.lookup (lit "src")) = some none ∧
    (toSite (lit "") imgWithoutSrc).image = lit "https://www.ethiopianadventuretours.com" ∧
    (toSite (lit "null") imgWithoutSrc).image =
      lit "https://www.ethiopianadventuretours.comnull" ∧
    (toSite (lit "") imgWithoutSrc).image ≠ lit "" ∧
    (toSite (lit "null") imgWithoutSrc).image ≠ lit "" := by
  decide

/-- C4, amended: the image is the empty string exactly when the container has
no `img` element. With a first `img` it is the base URL followed by the `src`
value, or by the parser's text for a missing attribute when the `img` has no
`src`, and is then never empty. -/
theorem image_rule (absent : JSString) (c : Container) :
    (c.getElementsByTagName (lit "img") = [] → (toSite absent c).image = lit "") ∧
    (∀ e rest src, c.getElementsByTagName (lit "img") = e :: rest →
      e.attributes.lookup (lit "src") = some src →
      (toSite absent c).image = baseURL ++ src) ∧
    (∀ e rest, c.getElementsByTagName (lit "img") = e :: rest →
      e.attributes.lookup (lit "src") = none →
      (toSite absent c).image = baseURL ++ absent) ∧
    ((toSite absent c).image = lit "" ↔ c.getElementsByTagName (lit "img") = []) := by
  refine ⟨?_, ?_, ?_, ?_⟩
  · intro h; simp [toSite, h]
  · intro e rest src h hs; simp [toSite, h, getAttribute, hs]
  · intro e rest h hs; simp [toSite, h, getAttribute, hs]
  · constructor
    · intro h
      cases hc : c.getElementsByTagName (lit "img") with
      | nil => rfl
      | cons e rest =>
        exfalso
        have h2 : (toSite absent c).image = baseURL ++ getAttribute absent e (lit "src") := by
          simp [toSite, hc]
        rw [h2] at h
        exact baseURL_append_ne_nil _ h
    · intro h; simp [toSite, h]

theorem image_rule_witness :
    bareContainer.getElementsByTagName (lit "img") = [] ∧
    (toSite (lit "") bareContainer).image = lit "" ∧
    (toSite (lit "") imgWithoutSrc).image = baseURL ∧
    (toSite (lit "") (card "Konso" "Cultural landscape" "/images/konso.jpg")).image =
      lit "https://www.ethiopianadventuretours.com/images/konso.jpg" :=
  ⟨rfl, (image_rule (lit "") bareContainer).1 rfl, by decide, by decide⟩

/-- C5, as stated, fails: a surviving container whose `h3` holds only white
space yields a record with the empty title, not the sentinel. -/
theorem blank_heading_gives_empty_title :
    (sites (lit "") [bareContainer, bareContainer, blankHeading, bareContainer,
        bareContainer]).map Site.title = [lit ""] ∧
    (toSite (lit "") blankHeading).title = lit "" := by
  decide

/-- C5, amended: the title is the sentinel when the container has no `h3` and
the trimmed text of the first `h3` otherwise; it is non-empty exactly when the
container has no `h3` or the text of its first `h3` has a code unit that is not
white space. -/
theorem title_rule (absent : JSString) (c : Container) :
    (c.getElementsByTagName (lit "h3") = [] →
      (toSite absent c).title = lit "No title available") ∧
    (∀ e rest, c.getElementsByTagName (lit "h3") = e :: rest →
      (toSite absent c).title = trim e.textContent) ∧
    ((toSite absent c).title ≠ lit "" ↔
      ∀ e, (c.getElementsByTagName (lit "h3")).head? = some e →
        ∃ ch ∈ e.textContent, isWhiteSpace ch = false) := by
  refine ⟨?_, ?_, ?_⟩
  · intro h; simp [toSite, h]
  · intro e rest h; simp [toSite, h]
  · cases hc : c.getElementsByTagName (lit "h3") with
    | nil =>
      have h2 : (toSite absent c).title = lit "No title available" := by simp [toSite, hc]
      rw [h2]
      simp only [List.head?_nil]
      constructor
      · intro _ e he; cases he
      · intro _; decide
    | cons e rest =>
      have h2 : (toSite absent c).title = trim e.textContent := by simp [toSite, hc]
      rw [h2]
      have h3 : (lit "" : JSString) = [] := by decide
      rw [h3, Ne, trim_eq_nil_iff]
      simp only [List.head?_cons, Option.some.injEq, forall_eq']
      constructor
      · intro h
        by_contra hno
        apply h
        intro ch hch
        by_contra hw
        exact hno ⟨ch, hch, by simpa using hw⟩
      · rintro ⟨ch, hch, hw⟩ hall
        rw [hall ch hch] at hw
        cases hw

theorem title_rule_witness :
    bareContainer.getElementsByTagName (lit "h3") = [] ∧
    (toSite (lit "") bareContainer).title = lit "No title available" ∧
    (toSite (lit "") (card "  Fasil Ghebbi " "Gondar" "/g.jpg")).title = lit "Fasil Ghebbi" :=
  ⟨rfl, (title_rule (lit "") bareContainer).1 rfl, by decide⟩

/-- C6, as stated, fails: `favorites` starts without an entry for the title
`constructor`, which the claim reads as false, yet the read of line 163 finds
the inherited `Object.prototype.constructor`, so the first press stores false
and the second stores true. -/
theorem pressFavorite_twice_constructor :
    initialState.favorites.lookup (lit "constructor") = none ∧
    storedFlag initialState.favorites (lit "constructor") = false ∧
    getProp initialState.favorites (lit "constructor") = JSVal.inherited ∧
    (pressFavorite initialState (lit "constructor")).favorites =
      [(lit "constructor", false)] ∧
    (pressFavorite (pressFavorite initialState (lit "constructor"))
      (lit "constructor")).favorites = [(lit "constructor", true)] ∧
    storedFlag (pressFavorite (pressFavorite initialState (lit "constructor"))
      (lit "constructor")).favorites (lit "constructor") = true := by
  decide

/-- C6, amended: two consecutive favorite presses on a title, each passing the
value then read for it as the render does, give back the favorite value the
render reads for that title (the truthiness of the read), one press negating
it; for a title that has a stored value or does not name a property inherited
from `Object.prototype`, that value is the stored one with an unset title read
as false, and the two presses give the stored value back. -/
theorem pressFavorite_twice (s : State) (title : JSString) :
    isFavorite (pressFavorite (pressFavorite s title) title) title = isFavorite s title ∧
    isFavorite (pressFavorite s title) title = !isFavorite s title ∧
    isFavorite initialState (lit "Lalibela") = false ∧
    ((title ∉ objectPrototypeKeys ∨ (s.favorites.lookup title).isSome = true) →
      isFavorite s title = storedFlag s.favorites title ∧
      storedFlag (pressFavorite s title).favorites title = !storedFlag s.favorites title ∧
      storedFlag (pressFavorite (pressFavorite s title) title).favorites title =
        storedFlag s.favorites title) := by
  have hst : ∀ (o : JSObject) (v : Bool), storedFlag (spreadSet o title v) title = v := by
    intro o v
    simp [storedFlag, lookup_spreadSet]
  refine ⟨?_, ?_, by decide, ?_⟩
  · simp [isFavorite, pressFavorite, handleIconPress, getProp_spreadSet_same, toBoolean]
  · simp [isFavorite, pressFavorite, handleIconPress, getProp_spreadSet_same, toBoolean]
  · intro h
    have hr := toBoolean_getProp_eq_storedFlag s.favorites title h
    refine ⟨hr, ?_, ?_⟩
    · show storedFlag (spreadSet s.favorites title
        (!toBoolean (getProp s.favorites title))) title = !storedFlag s.favorites title
      rw [hst, hr]
    · show storedFlag (spreadSet (spreadSet s.favorites title
          (!toBoolean (getProp s.favorites title))) title
          (!toBoolean (getProp (spreadSet s.favorites title
            (!toBoolean (getProp s.favorites title))) title))) title =
        storedFlag s.favorites title
      rw [hst, getProp_spreadSet_same, hr]
      simp [toBoolean]

theorem pressFavorite_twice_witness :
    (lit "Lalibela" ∉ objectPrototypeKeys ∨
      (initialState.favorites.lookup (lit "Lalibela")).isSome = true) ∧
    (isFavorite initialState (lit "Lalibela") =
        storedFlag initialState.favorites (lit "Lalibela") ∧
      storedFlag (pressFavorite initialState (lit "Lalibela")).favorites (lit "Lalibela") =
        !storedFlag initialState.favorites (lit "Lalibela") ∧
      storedFlag (pressFavorite (pressFavorite initialState (lit "Lalibela"))
          (lit "Lalibela")).favorites (lit "Lalibela") =
        storedFlag initialState.favorites (lit "Lalibela")) ∧
    storedFlag (pressFavorite initialState (lit "Lalibela")).favorites (lit "Lalibela") = true ∧
    storedFlag (pressFavorite (pressFavorite initialState (lit "Lalibela"))
      (lit "Lalibela")).favorites (lit "Lalibela") = false :=
  ⟨Or.inl (by decide),
   (pressFavorite_twice initialState (lit "Lalibela")).2.2.2 (Or.inl (by decide)),
   by decide, by decide⟩

/-- C7: a favorite toggle on a title leaves the `dislikes` and `expanded` objects
as they were and leaves every other title of `favorites` as it was; nothing ties
the two flags together, so a title can be favorite and disliked at once. -/
theorem handleIconPress_frame (s : State) (title : JSString) (v : JSVal) :
    (handleIconPress s title v).dislikes = s.dislikes ∧
    (handleIconPress s title v).expanded = s.expanded ∧
    (∀ u, isDisliked (handleIconPress s title v) u = isDisliked s u) ∧
    (∀ u, isExpanded (handleIconPress s title v).expanded u = isExpanded s.expanded u) ∧
    (∀ u, u ≠ title →
      getProp (handleIconPress s title v).favorites u = getProp s.favorites u) ∧
    (isDisliked s title = true → toBoolean v = false →
      isFavorite (handleIconPress s title v) title = true ∧
      isDisliked (handleIconPress s title v) title = true) := by
  refine ⟨rfl, rfl, fun _ => rfl, fun _ => rfl, ?_, ?_⟩
  · intro u hu
    simp [handleIconPress, getProp_spreadSet_other _ _ _ _ hu]
  · intro hd hv
    refine ⟨?_, hd⟩
    show toBoolean (getProp (spreadSet s.favorites title (!toBoolean v)) title) = true
    rw [getProp_spreadSet_same, hv]
    rfl

theorem handleIconPress_frame_witness :
    lit "Aksum" ≠ lit "Lalibela" ∧
    getProp (handleIconPress (pressFavorite initialState (lit "Aksum")) (lit "Lalibela")
        JSVal.undefined).favorites (lit "Aksum") =
      getProp (pressFavorite initialState (lit "Aksum")).favorites (lit "Aksum") ∧
    isFavorite (pressFavorite (pressDislike initialState (lit "Lalibela")) (lit "Lalibela"))
        (lit "Lalibela") = true ∧
    isDisliked (pressFavorite (pressDislike initialState (lit "Lalibela")) (lit "Lalibela"))
        (lit "Lalibela") = true :=
  ⟨by decide,
   (handleIconPress_frame (pressFavorite initialState (lit "Aksum")) (lit "Lalibela")
      JSVal.undefined).2.2.2.2.1 (lit "Aksum") (by decide),
   (handleIconPress_frame (pressDislike initialState (lit "Lalibela")) (lit "Lalibela")
      (getProp (pressDislike initialState (lit "Lalibela")).favorites (lit "Lalibela"))
      ).2.2.2.2.2 (by decide) (by decide) |>.1,
   by decide⟩

/-- C8, as stated, fails: with an empty `expanded` object the title
`constructor` has no expanded flag, the description has 120 code units, and the
text shown is all 120 of them, because the read of line 152 finds the inherited
`Object.prototype.constructor`. -/
theorem constructor_title_shown_in_full :
    storedFlag [] constructorSite.title = false ∧
    ([] : JSObject).lookup constructorSite.title = none ∧
    100 < constructorSite.description.length ∧
    descriptionText [] constructorSite = constructorSite.description ∧
    (descriptionText [] constructorSite).length = 120 ∧
    descriptionText [] constructorSite ≠
      constructorSite.description.take 100 ++ lit "..." := by
  decide

/-- C8, amended: for a title whose expanded flag is false, the title having a
stored flag or not naming a property inherited from `Object.prototype`, and a
description longer than 100 code units, the text shown is the first 100 code
units followed by three dots; for a title whose stored expanded flag is true it
is the description verbatim. -/
theorem descriptionText_law (expanded : JSObject) (site : Site) :
    (storedFlag expanded site.title = false →
      (site.title ∉ objectPrototypeKeys ∨ (expanded.lookup site.title).isSome = true) →
      100 < site.description.length →
      descriptionText expanded site = site.description.take 100 ++ lit "..." ∧
      (site.description.take 100).length = 100) ∧
    (storedFlag expanded site.title = true →
      descriptionText expanded site = site.description) := by
  constructor
  · intro hs hk hl
    have he2 : toBoolean (getProp expanded site.title) = false := by
      rw [toBoolean_getProp_eq_storedFlag expanded site.title hk, hs]
    constructor
    · simp [descriptionText, he2, substring_zero]
    · rw [List.length_take]; omega
  · intro hs
    have hk : site.title ∉ objectPrototypeKeys ∨ (expanded.lookup site.title).isSome = true := by
      right
      cases hl : expanded.lookup site.title with
      | some b => rfl
      | none => simp [storedFlag, hl] at hs
    have he2 : toBoolean (getProp expanded site.title) = true := by
      rw [toBoolean_getProp_eq_storedFlag expanded site.title hk, hs]
    simp [descriptionText, he2]

theorem descriptionText_law_witness :
    storedFlag [] longSite.title = false ∧
    (longSite.title ∉ objectPrototypeKeys ∨
      (([] : JSObject).lookup longSite.title).isSome = true) ∧
    100 < longSite.description.length ∧
    (descriptionText [] longSite = longSite.description.take 100 ++ lit "..." ∧
      (longSite.description.take 100).length = 100) ∧
    descriptionText [] longSite = List.replicate 100 97 ++ lit "..." ∧
    descriptionText [] longSite ≠ longSite.description ∧
    storedFlag (toggleExpand initialState longSite.title).expanded longSite.title = true ∧
    descriptionText (toggleExpand initialState longSite.title).expanded longSite =
      longSite.description :=
  ⟨by decide, Or.inl (by decide), by decide,
   (descriptionText_law [] longSite).1 (by decide) (Or.inl (by decide)) (by decide),
   by decide, by decide, by decide,
   (descriptionText_law (toggleExpand initialState longSite.title).expanded longSite).2
     (by decide)⟩

/-- C9, as stated, fails: the message has a space before the two newlines and a
space after them, and for a title with an unpaired surrogate
`encodeURIComponent` throws, so no message is built at all. -/
theorem shareMessage_has_spaces :
    shareSite aksumSite = some (lit
      ("https://www.ethiopianadventuretours.com/about-ethiopia/" ++
       "unesco-world-heritage-sites-ethiopia#Aksum \n\n " ++
       "https://www.ethiopianadventuretours.com/images/aksum.jpg")) ∧
    encodeURIComponent aksumSite.title = some (lit "Aksum") ∧
    shareSite aksumSite ≠
      some (pageURL ++ lit "#" ++ lit "Aksum" ++ lit "\n\n" ++ aksumSite.image) ∧
    shareSite surrogateSite = none := by
  decide

/-- C9, amended: for a title without unpaired surrogate the message is the page
URL, `#`, the URL-encoded title, a space, two newlines, a space and the image
URL, nothing else; for a title with an unpaired surrogate no message is built. -/
theorem shareMessage_format (site : Site) :
    (isWellFormed site.title = true →
      ∃ encoded, encodeURIComponent site.title = some encoded ∧
        shareSite site =
          some (pageURL ++ lit "#" ++ encoded ++ lit " " ++ lit "\n\n" ++ lit " " ++
            site.image)) ∧
    (isWellFormed site.title = false → shareSite site = none) := by
  have hs := encodeURIComponent_isSome site.title
  constructor
  · intro hw
    rw [hw] at hs
    obtain ⟨encoded, he⟩ := Option.isSome_iff_exists.mp hs
    refine ⟨encoded, he, ?_⟩
    have e1 : (lit " \n\n " : JSString) = lit " " ++ lit "\n\n" ++ lit " " := by decide
    simp only [shareSite, he, e1, List.append_assoc]
  · intro hw
    rw [hw] at hs
    cases he : encodeURIComponent site.title with
    | none => simp [shareSite, he]
    | some e => rw [he] at hs; cases hs

theorem shareMessage_format_witness :
    isWellFormed aksumSite.title = true ∧
    (∃ encoded, encodeURIComponent aksumSite.title = some encoded ∧
      shareSite aksumSite =
        some (pageURL ++ lit "#" ++ encoded ++ lit " " ++ lit "\n\n" ++ lit " " ++
          aksumSite.image)) ∧
    isWellFormed surrogateSite.title = false ∧ shareSite surrogateSite = none :=
  ⟨by decide, (shareMessage_format aksumSite).1 (by decide), by decide,
   (shareMessage_format surrogateSite).2 (by decide)⟩

/-- C10, as stated, fails: a description made of one hundred letters followed
by three dots is shown collapsed exactly as it is; and a short description under
the never-expanded title `toString` is shown without any dots, because the read
of line 152 finds the inherited `Object.prototype.toString`. -/
theorem collapsed_text_can_equal_description :
    storedFlag [] dottedSite.title = false ∧
    isExpanded [] dottedSite.title = false ∧
    dottedSite.description.length = 103 ∧
    descriptionText [] dottedSite = dottedSite.description ∧
    storedFlag [] toStringSite.title = false ∧
    toStringSite.description.length ≤ 100 ∧
    descriptionText [] toStringSite = lit "Obelisks" ∧
    descriptionText [] toStringSite ≠ toStringSite.description ++ lit "..." := by
  decide

/-- C10, amended: for a title whose expanded flag is false, the title having a
stored flag or not naming a property inherited from `Object.prototype`: a
description of at most 100 code units is shown whole followed by three dots,
which differs from the description; for every description the text shown ends
in three dots, and it equals the description only when the description has
exactly 103 code units and itself ends in three dots. -/
theorem collapsed_text_law (expanded : JSObject) (site : Site)
    (hs : storedFlag expanded site.title = false)
    (hk : site.title ∉ objectPrototypeKeys ∨ (expanded.lookup site.title).isSome = true) :
    (site.description.length ≤ 100 →
      descriptionText expanded site = site.description ++ lit "..." ∧
      descriptionText expanded site ≠ site.description) ∧
    (∃ shown, descriptionText expanded site = shown ++ lit "...") ∧
    (descriptionText expanded site = site.description ↔
      site.description.length = 103 ∧ site.description.drop 100 = lit "...") := by
  have he2 : toBoolean (getProp expanded site.title) = false := by
    rw [toBoolean_getProp_eq_storedFlag expanded site.title hk, hs]
  have ht : descriptionText expanded site = site.description.take 100 ++ lit "..." := by
    simp [descriptionText, he2, substring_zero]
  have hdots : (lit "..." : JSString).length = 3 := by decide
  refine ⟨?_, ⟨_, ht⟩, ?_⟩
  · intro hl
    rw [ht, List.take_of_length_le hl]
    refine ⟨rfl, ?_⟩
    intro h
    have h2 := congrArg List.length h
    rw [List.length_append, hdots] at h2
    omega
  · rw [ht]
    constructor
    · intro h
      have h2 := congrArg List.length h
      rw [List.length_append, hdots, List.length_take] at h2
      have hlen : site.description.length = 103 := by omega
      refine ⟨hlen, ?_⟩
      have h3 : site.description.take 100 ++ lit "..." =
          site.description.take 100 ++ site.description.drop 100 := by
        rw [List.take_append_drop]; exact h
      exact (List.append_cancel_left h3).symm
    · rintro ⟨_, hd⟩
      rw [← hd, List.take_append_drop]

theorem collapsed_text_law_witness :
    storedFlag [] aksumSite.title = false ∧
    (aksumSite.title ∉ objectPrototypeKeys ∨
      (([] : JSObject).lookup aksumSite.title).isSome = true) ∧
    aksumSite.description.length ≤ 100 ∧
    (descriptionText [] aksumSite = aksumSite.description ++ lit "..." ∧
      descriptionText [] aksumSite ≠ aksumSite.description) ∧
    descriptionText [] aksumSite = lit "Obelisks..." :=
  ⟨by decide, Or.inl (by decide), by decide,
   (collapsed_text_law [] aksumSite (by decide) (Or.inl (by decide))).1 (by decide),
   by decide⟩

end Dashboard
